import Mathlib

/-!
Verification development for a Telegram distribution-center data-entry bot.

The bot drives per-user multi-step dialogs (create / read / update / delete /
insights) over a spreadsheet backing store.  This file shallowly embeds the
handler functions of the source (src/handlers/*.py, src/gsheet_utils.py,
src/keyboards.py, src/common_handlers.py, src/config.py) as pure Lean
functions and proves properties of them.

Modelling conventions:
  * Python floats that hold prices are modelled as rationals.
  * Python str is modelled as Lean String; all data in this program is ASCII.
  * datetime values are modelled as natural-number clock ticks; isoformat is
    injective and order-preserving, so a timestamp cell stores the tick.
  * Fallible code (uncaught Python exceptions such as KeyError / gspread
    APIError) is modelled with Except Unit.
  * The per-user context.user_data dict is modelled as a structure holding
    every key the handlers use; a cleared dict is the structure of defaults.
-/

/-! ## ASCII character case maps

Python str.lower / str.upper / str.title act per ASCII letter on the data in
this program.  The case maps are given by an explicit table so that their
properties are provable by finite case analysis. -/

/-- Upper/lower pairs of the ASCII alphabet. -/
def ulTable : List (Char × Char) :=
  [('A','a'), ('B','b'), ('C','c'), ('D','d'), ('E','e'), ('F','f'), ('G','g'),
   ('H','h'), ('I','i'), ('J','j'), ('K','k'), ('L','l'), ('M','m'), ('N','n'),
   ('O','o'), ('P','p'), ('Q','q'), ('R','r'), ('S','s'), ('T','t'), ('U','u'),
   ('V','v'), ('W','w'), ('X','x'), ('Y','y'), ('Z','z')]

/-- ASCII lowercasing of one character (identity off A-Z). -/
def lowerChar (c : Char) : Char :=
  match ulTable.find? (fun q => q.1 == c) with
  | some pr => pr.2
  | none => c

/-- ASCII uppercasing of one character (identity off a-z). -/
def upperChar (c : Char) : Char :=
  match ulTable.find? (fun q => q.2 == c) with
  | some pr => pr.1
  | none => c

/-- Is the character an ASCII uppercase letter? -/
def isUpperTab (c : Char) : Bool :=
  (ulTable.find? (fun q => q.1 == c)).isSome

/-- Is the character an ASCII lowercase letter? -/
def isLowerTab (c : Char) : Bool :=
  (ulTable.find? (fun q => q.2 == c)).isSome

/-- Is the character an ASCII letter (Python "cased" character)? -/
def isAlphaTab (c : Char) : Bool :=
  isUpperTab c || isLowerTab c

/-- Python whitespace (the regex class \s over ASCII). -/
def isPyWs (c : Char) : Bool :=
  (c == ' ') || (c == '\t') || (c == '\n') || (c == '\x0b') || (c == '\x0c') || (c == '\r')

/-- Python str.lower over a whole string. -/
def lowerStr (s : String) : String :=
  ⟨s.data.map lowerChar⟩

/-- Kernel of Python str.title: the boolean records whether the previous
character was cased; a cased character after a cased one is lowercased,
otherwise uppercased; uncased characters pass through and reset the flag. -/
def pythonTitleAux : Bool → List Char → List Char
  | _, [] => []
  | prevCased, c :: cs =>
    if isAlphaTab c then
      (if prevCased then lowerChar c else upperChar c) :: pythonTitleAux true cs
    else
      c :: pythonTitleAux false cs

/-- Python str.title over a whole string. -/
def pythonTitle (s : String) : String :=
  ⟨pythonTitleAux false s.data⟩

/-- Python str.split() with no arguments: split on runs of whitespace,
discarding empty pieces.  The accumulator holds the current word reversed. -/
def splitWsAux : List Char → List Char → List (List Char)
  | [], acc => if acc.isEmpty then [] else [acc.reverse]
  | c :: cs, acc =>
    if isPyWs c then
      if acc.isEmpty then splitWsAux cs [] else acc.reverse :: splitWsAux cs []
    else
      splitWsAux cs (c :: acc)

/-- Models Python " ".join(text.split()): collapse whitespace runs to single
spaces and strip the ends. -/
def collapseWs (cs : List Char) : List Char :=
  List.intercalate [' '] (splitWsAux cs [])

/-- Characters kept by re.sub(r'[^a-zA-Z0-9\s]', '', text). -/
def keepChar (c : Char) : Bool :=
  isAlphaTab c || c.isDigit || isPyWs c

/-- Embeds gsheet_utils._clean_and_capitalize_text: drop characters that are
not letters, digits or whitespace, title-case, collapse whitespace. -/
def clean_and_capitalize_text (s : String) : String :=
  ⟨collapseWs (pythonTitleAux false (s.data.filter keepChar))⟩

/-- Python single-character str.replace(a, b). -/
def replaceChar (a b : Char) (s : String) : String :=
  ⟨s.data.map fun c => if c == a then b else c⟩

/-- Fuel-driven kernel of Python str.replace(pat, ""): scan left to right,
deleting every occurrence of the pattern.  Fuel is the input length, which
bounds the recursion. -/
def removeAllOccFuel : Nat → List Char → List Char → List Char
  | 0, _, cs => cs
  | _ + 1, _, [] => []
  | fuel + 1, pat, c :: rest =>
    if pat.isEmpty then c :: rest
    else if pat.isPrefixOf (c :: rest) then
      removeAllOccFuel fuel pat ((c :: rest).drop pat.length)
    else
      c :: removeAllOccFuel fuel pat rest

/-- Python s.replace(pat, "") (delete all occurrences of pat). -/
def pyRemoveAll (pat s : String) : String :=
  ⟨removeAllOccFuel s.data.length pat.data s.data⟩

/-- Embeds keyboards.clean_and_format_for_display: replace underscores with
spaces, then title-case. -/
def clean_and_format_for_display (s : String) : String :=
  pythonTitle (replaceChar '_' ' ' s)

/-- The callback-data slug the keyboard builder derives from a button label:
str(item).replace(" ", "_").lower() (keyboards.build_keyboard). -/
def slugOf (s : String) : String :=
  lowerStr (replaceChar ' ' '_' s)

/-- Python str.strip() on a character list. -/
def pyStripChars (cs : List Char) : List Char :=
  ((cs.dropWhile isPyWs).reverse.dropWhile isPyWs).reverse

/-- Python str.strip(). -/
def pyStrip (s : String) : String :=
  ⟨pyStripChars s.data⟩

/-- Split off a leading run of ASCII digits. -/
def spanDigits (cs : List Char) : List Char × List Char :=
  (cs.takeWhile Char.isDigit, cs.dropWhile Char.isDigit)

/-- Numeric value of a digit string. -/
def digitsToNat (cs : List Char) : Nat :=
  cs.foldl (fun a c => a * 10 + (c.toNat - 48)) 0

/-- Models Python float(s) on finite decimal literals: optional surrounding
whitespace, optional sign, digits with an optional fractional part (at least
one digit overall), optional exponent.  Returns the exact rational value.
(The model does not accept the inf/nan spellings or digit-group underscores.) -/
def parsePyFloat (s : String) : Option ℚ :=
  let cs := pyStripChars s.data
  let (sgn, cs) : ℚ × List Char :=
    match cs with
    | '+' :: r => (1, r)
    | '-' :: r => (-1, r)
    | r => (1, r)
  let (ip, cs) := spanDigits cs
  let (hasDot, cs) : Bool × List Char :=
    match cs with
    | '.' :: r => (true, r)
    | r => (false, r)
  let (fp, cs) := if hasDot then spanDigits cs else ([], cs)
  if ip.isEmpty && fp.isEmpty then none
  else
    let mant : ℚ := sgn * (digitsToNat (ip ++ fp) : ℚ) / ((10 : ℚ) ^ fp.length)
    match cs with
    | [] => some mant
    | 'e' :: r | 'E' :: r =>
      let (esgn, r) : ℤ × List Char :=
        match r with
        | '+' :: t => (1, t)
        | '-' :: t => (-1, t)
        | t => (1, t)
      let (ed, r) := spanDigits r
      if ed.isEmpty || !r.isEmpty then none
      else some (mant * (10 : ℚ) ^ (esgn * (digitsToNat ed : ℤ)))
    | _ => none

/-- Python round(x, 2) (the half-to-even tie behaviour of binary floats is
immaterial to the program's data, which never produces exact half-cent ties;
the model rounds ties up). -/
def round2 (q : ℚ) : ℚ :=
  (round (q * 100) : ℤ) / 100

example : parsePyFloat "12.5" = some (25 / 2) := by with_unfolding_all decide
example : parsePyFloat "  -3e2 " = some (-300) := by with_unfolding_all decide
example : parsePyFloat "abc" = none := by with_unfolding_all decide
example : parsePyFloat "1,000" = none := by with_unfolding_all decide
example : clean_and_format_for_display "beet_root" = "Beet Root" := by decide
example : clean_and_capitalize_text "  red-ONION  grade a!!" = "Redonion Grade A" := by decide
example : slugOf "Beet root" = "beet_root" := by decide

/-! ## Configuration constants (src/config.py)

Conversation state identifiers are the integers produced by
_generate_unique_states, in declaration order; python-telegram-bot's
ConversationHandler.END is -1. -/

def CONV_END : ℤ := -1

def CREATE_CHOOSE_ENTRY_TYPE : ℤ := 0
def CREATE_BATCH_SELECT_LOCATION : ℤ := 1
def CREATE_BATCH_ENTER_REMARK : ℤ := 2
def CREATE_BATCH_TOGGLE_PRODUCTS : ℤ := 3
def CREATE_BATCH_ENTER_PRICE : ℤ := 4
def CREATE_BATCH_CONFIRM_SUBMISSION : ℤ := 5
def CREATE_SINGLE_SELECT_PRODUCT : ℤ := 6
def CREATE_SINGLE_ENTER_PRICE : ℤ := 7
def CREATE_SINGLE_SELECT_LOCATION : ℤ := 8
def CREATE_SINGLE_ENTER_REMARK : ℤ := 9
def CREATE_SINGLE_CONFIRM_SUBMISSION : ℤ := 10
def UPDATE_ASK_ID : ℤ := 11
def UPDATE_SELECT_FIELDS_TOGGLE : ℤ := 12
def UPDATE_ENTER_MULTIPLE_VALUES : ℤ := 13
def UPDATE_CONFIRM_MULTIPLE : ℤ := 14
def DELETE_ASK_ID : ℤ := 15
def DELETE_CONFIRM : ℤ := 16
def VIEW_AWAITING_MENU_CHOICE : ℤ := 17
def VIEW_AWAITING_ID_INPUT : ℤ := 18
def VIEW_PAGINATING_ENTRIES : ℤ := 19

/-- Column field names (config.py).  Source names end in _FIELD. -/
def ID_FIELD : String := "id"
def TIMESTAMP_FIELD : String := "timestamp"
def EMAIL_FIELD : String := "email_address"
def PRODUCT_FIELD : String := "product_list"
def PRICE_FIELD : String := "buying_price"
def LOCATION_FIELD : String := "location"
def REMARK_FIELD : String := "production_remark"

/-- config.DEFAULT_HEADERS; also the runtime gsheet_utils.HEADERS of a sheet
initialized with the default layout. -/
def HEADERS : List String :=
  [ID_FIELD, TIMESTAMP_FIELD, EMAIL_FIELD, PRODUCT_FIELD, PRICE_FIELD,
   LOCATION_FIELD, REMARK_FIELD]

/-- config.PRODUCTS. -/
def PRODUCTS : List String :=
  ["Red Onion Grade A Restaurant quality", "Red Onion Grade B", "Red Onion Grade C",
   "Red Onion Elfora", "Potatoes", "Potatoes Restaurant Quality",
   "Tomatoes Grade B", "Tomatoes Grade A", "Carrot", "Chilly Green",
   "Chilly Green (Elfora)", "White Cabbage", "White Cabbage (Small)",
   "White Cabbage (Large)", "Avocado", "Strawberry", "Papaya", "Courgette",
   "Cucumber", "Garlic", "Ginger", "Pineapple", "Apple Mango", "Lemon",
   "Apple", "Valencia Orange", "Yerer Orange", "Avocado Shekaraw",
   "Beet root", "Corn", "Orange", "Green Beans", "Salad", "Broccoli"]

/-- config.LOCATIONS. -/
def LOCATIONS : List String :=
  ["Distribution Center 1 Gerji", "Distribution Center 2 Garment",
   "Distribution Center 3 02", "Distribution Center Lemi Kura/Alem Bank"]

/-- Callback-data strings (config.py; names ending in _PREFIX in the source
are rendered _PFX here). -/
def CB_MAIN_MENU_PFX : String := "menu_nav_"
def CB_CREATE_BATCH_COMMON_LOCATION_PFX : String := "create_b_loc_"
def CB_CREATE_BATCH_PRODUCT_TOGGLE_PFX : String := "create_b_prod_toggle_"
def CB_CREATE_SINGLE_PRODUCT_PFX : String := "create_s_prod_"
def CB_CREATE_SINGLE_LOCATION_PFX : String := "create_s_loc_"
def CB_UPDATE_FIELD_TOGGLE_PFX : String := "update_field_"
def CB_UPDATE_NEWVAL_PRODUCT_PFX : String := "update_val_prod_"
def CB_UPDATE_NEWVAL_LOCATION_PFX : String := "update_val_loc_"
def CB_DELETE_CONFIRM_YES : String := "delete_do_yes"
def CB_DELETE_CONFIRM_NO : String := "delete_do_no"

/-- config.DEFAULT_ENTRIES_PER_PAGE_VIEW. -/
def DEFAULT_ENTRIES_PER_PAGE_VIEW : Nat := 5

/-! ## Backing store model (src/gsheet_utils.py)

A worksheet is a list of rows of cells.  A cell holds a Python value written
to or read from the sheet: a string, a number (price), a timestamp tick
(standing for the isoformat string of that clock value), or Python None. -/

inductive CellVal where
  | s (v : String)
  | n (v : ℚ)
  | ts (t : Nat)
  | none
deriving DecidableEq, Repr

abbrev Row := List CellVal

/-- State of the gsheet_utils module: GSHEET_CONNECTED together with the
worksheet being present is the readiness flag; failMode models the external
condition under which a gspread API call raises. -/
structure StoreState where
  connected : Bool
  failMode : Bool
  rows : List Row
deriving DecidableEq, Repr

/-- Embeds gsheet_utils.append_rows_to_sheet: readiness check first (returns
False without touching the store), empty input returns True, a raising
append is caught and converted to False. -/
def append_rows_to_sheet (store : StoreState) (rows_data : List Row) : Bool × StoreState :=
  if !store.connected then (false, store)
  else if rows_data.isEmpty then (true, store)
  else if store.failMode then (false, store)
  else (true, { store with rows := store.rows ++ rows_data })

/-- Embeds gsheet_utils.delete_row_from_sheet (row_number is 1-based). -/
def delete_row_from_sheet (store : StoreState) (row_number : Nat) : Bool × StoreState :=
  if !store.connected then (false, store)
  else if store.failMode then (false, store)
  else (true, { store with rows := store.rows.take (row_number - 1) ++ store.rows.drop row_number })

/-- Write one cell of one row, 1-based coordinates; out-of-range writes leave
the sheet unchanged. -/
def setCell (rows : List Row) (r c : Nat) (v : CellVal) : List Row :=
  rows.set (r - 1) ((rows[r - 1]?.getD []).set (c - 1) v)

/-- Read one cell, 1-based coordinates. -/
def getCell (rows : List Row) (r c : Nat) : Option CellVal :=
  rows[r - 1]?.bind (fun row => row[c - 1]?)

/-- One batch_update operation: row, column, new value. -/
structure UpdateOp where
  row : Nat
  col : Nat
  val : CellVal
deriving DecidableEq, Repr

/-- Apply batch_update operations left to right. -/
def applyOps (rows : List Row) (ops : List UpdateOp) : List Row :=
  ops.foldl (fun rs op => setCell rs op.row op.col op.val) rows

/-- Embeds worksheet.batch_update as called by execute_multiple_updates: a
raw gspread call with no readiness wrapper; it raises (models as .error)
when the worksheet is absent or the API call fails. -/
def batch_update_raw (store : StoreState) (ops : List UpdateOp) :
    Except Unit StoreState :=
  if !store.connected then .error ()
  else if store.failMode then .error ()
  else .ok { store with rows := applyOps store.rows ops }

/-- Embeds worksheet.get_all_values as called by view_last_entries_callback:
a raw gspread call that raises when the worksheet is absent or the API call
fails. -/
def get_all_values_raw (store : StoreState) : Except Unit (List Row) :=
  if !store.connected then .error ()
  else if store.failMode then .error ()
  else .ok store.rows

/-- Embeds gsheet_utils.update_cell_in_sheet: readiness check first, a
raising call converted to False. -/
def update_cell_in_sheet (store : StoreState) (row_number col_number : Nat)
    (new_value : CellVal) : Bool × StoreState :=
  if !store.connected then (false, store)
  else if store.failMode then (false, store)
  else (true, { store with rows := setCell store.rows row_number col_number new_value })

/-! ## Per-user session (context.user_data)

One mutable dict per user; the handlers of all dialogs share it.  Every key
any modelled handler reads or writes is a field; a cleared dict is
SessionData.empty.  List- and map-valued keys fold the distinction between
an absent key and an empty value into the default, which is how every
modelled code path treats them. -/

/-- The create-single flow's 'current_entry' sub-dict. -/
structure CurrentEntry where
  product : Option String := Option.none
  price : Option ℚ := Option.none
  location : Option String := Option.none
  remark : Option String := Option.none
deriving DecidableEq, Repr

/-- One completed batch item ('batch_entries' element). -/
structure BatchItem where
  product : String
  price : ℚ
  location : String
  remark : String
deriving DecidableEq, Repr

structure SessionData where
  currentEntry : Option CurrentEntry := Option.none
  batchEntries : List BatchItem := []
  batchSelectedProducts : List String := []
  batchCommonLocation : Option String := Option.none
  batchCommonRemark : Option String := Option.none
  batchPriceQueue : List String := []
  batchCurrentProductForPrice : Option String := Option.none
  updateEntryId : Option String := Option.none
  updateRowNum : Option Nat := Option.none
  updateOriginalData : List (String × String) := []
  fieldsToUpdateSelectedKeys : List String := []
  newValuesForUpdateMap : List (String × CellVal) := []
  updateFieldsQueue : List String := []
  currentFieldBeingUpdatedKey : Option String := Option.none
  deleteEntryId : Option String := Option.none
  deleteRowNum : Option Nat := Option.none
deriving DecidableEq, Repr

/-- context.user_data.clear(). -/
def SessionData.empty : SessionData := {}

/-! ## Shared handlers (src/common_handlers.py, src/keyboards.py) -/

/-- What the post-conversation fallback renders. -/
inductive NavRender where
  | mainMenu
  | createTypePrompt
  | silentEnd
deriving DecidableEq, Repr

/-- Embeds common_handlers.cancel_conversation: clear the session, render the
post-action keyboard, end the conversation. -/
def cancel_conversation (ud : SessionData) : SessionData × ℤ :=
  let _ := ud
  (SessionData.empty, CONV_END)

/-- Embeds handlers.create.start_new_entry: clear the session and prompt for
the entry type. -/
def start_new_entry (ud : SessionData) : SessionData × ℤ :=
  let _ := ud
  (SessionData.empty, CREATE_CHOOSE_ENTRY_TYPE)

/-- Embeds common_handlers.post_conversation_callback_handler: clear the
session; the "menu" payload renders the main menu and ends, the "new"
payload delegates to start_new_entry and forwards its state, anything else
ends silently. -/
def post_conversation_callback_handler (data : String) (ud : SessionData) :
    SessionData × ℤ × NavRender :=
  let ud0 := SessionData.empty
  let _ := ud
  if data = CB_MAIN_MENU_PFX ++ "menu" then
    (ud0, CONV_END, NavRender.mainMenu)
  else if data = CB_MAIN_MENU_PFX ++ "new" then
    let r := start_new_entry ud0
    (r.1, r.2, NavRender.createTypePrompt)
  else
    (ud0, CONV_END, NavRender.silentEnd)

/-! ## Create dialog (src/handlers/create.py) -/

/-- Embeds ask_single_entry_product: deletes the 'current_entry' key and
prompts for a product. -/
def ask_single_entry_product (ud : SessionData) : SessionData × ℤ :=
  ({ ud with currentEntry := Option.none }, CREATE_SINGLE_SELECT_PRODUCT)

/-- Embeds single_entry_product_selection: strip the callback prefix from the
payload (str.replace with ""), prettify it, store it as the product. -/
def single_entry_product_selection (data : String) (ud : SessionData) :
    SessionData × ℤ :=
  let raw_product_slug := pyRemoveAll CB_CREATE_SINGLE_PRODUCT_PFX data
  let selected_product := clean_and_format_for_display raw_product_slug
  let ce := ud.currentEntry.getD {}
  ({ ud with currentEntry := some { ce with product := some selected_product } },
   CREATE_SINGLE_ENTER_PRICE)

/-- Embeds single_entry_price_entry: float() parse, reject non-positive,
re-prompt the same state on failure.  _get_current_entry_data creates the
'current_entry' key when it is absent, also on the failure path. -/
def single_entry_price_entry (text : String) (ud : SessionData) :
    SessionData × ℤ :=
  let ce := ud.currentEntry.getD {}
  match parsePyFloat text with
  | some price =>
    if price ≤ 0 then
      ({ ud with currentEntry := some ce }, CREATE_SINGLE_ENTER_PRICE)
    else
      ({ ud with currentEntry := some { ce with price := some price } },
       CREATE_SINGLE_SELECT_LOCATION)
  | Option.none =>
    ({ ud with currentEntry := some ce }, CREATE_SINGLE_ENTER_PRICE)

/-- Embeds single_entry_location_selection. -/
def single_entry_location_selection (data : String) (ud : SessionData) :
    SessionData × ℤ :=
  let raw_location_slug := pyRemoveAll CB_CREATE_SINGLE_LOCATION_PFX data
  let selected_location := clean_and_format_for_display raw_location_slug
  let ce := ud.currentEntry.getD {}
  ({ ud with currentEntry := some { ce with location := some selected_location } },
   CREATE_SINGLE_ENTER_REMARK)

/-- Embeds show_single_entry_confirmation: renders the summary and moves to
the confirmation state. -/
def show_single_entry_confirmation (ud : SessionData) : SessionData × ℤ :=
  (ud, CREATE_SINGLE_CONFIRM_SUBMISSION)

/-- Embeds single_entry_remark_entry. -/
def single_entry_remark_entry (text : String) (ud : SessionData) :
    SessionData × ℤ :=
  let ce := ud.currentEntry.getD {}
  show_single_entry_confirmation
    { ud with currentEntry := some { ce with remark := some text } }

/-- Embeds single_skip_remark_entry (the /skip_remark_single command). -/
def single_skip_remark_entry (ud : SessionData) : SessionData × ℤ :=
  let ce := ud.currentEntry.getD {}
  show_single_entry_confirmation
    { ud with currentEntry := some { ce with remark := some "" } }

/-- Cell written for a dict value that may be Python None
(entry_data.get(key) with no default). -/
def cellOfOptStr : Option String → CellVal
  | some v => CellVal.s v
  | Option.none => CellVal.none

/-- Cell written for an optional price. -/
def cellOfOptPrice : Option ℚ → CellVal
  | some v => CellVal.n v
  | Option.none => CellVal.none

/-- Embeds submit_single_entry_data: build the row in HEADERS order with a
fresh uuid (entry_id) and the submission-time timestamp, append it, then
clear the session and end regardless of the append outcome.  The remark uses
entry_data.get('remark', ''), hence the empty-string default. -/
def submit_single_entry_data (entry_id : String) (now : Nat) (user : String)
    (ud : SessionData) (store : StoreState) :
    SessionData × ℤ × StoreState × Bool :=
  let ce := ud.currentEntry.getD {}
  let row : Row :=
    [CellVal.s entry_id, CellVal.ts now, CellVal.s user,
     cellOfOptStr ce.product, cellOfOptPrice ce.price,
     cellOfOptStr ce.location, CellVal.s (ce.remark.getD "")]
  let r := append_rows_to_sheet store [row]
  (SessionData.empty, CONV_END, r.2, r.1)

/-- The full single-entry happy path: product button, price text, location
button, remark text, then submit (the dialog's registered state order). -/
def run_single_entry_dialog (productData priceText locationData remarkText : String)
    (entry_id : String) (now : Nat) (user : String) (store : StoreState) :
    SessionData × ℤ × StoreState × Bool :=
  let ud0 := (ask_single_entry_product SessionData.empty).1
  let ud1 := (single_entry_product_selection productData ud0).1
  let ud2 := (single_entry_price_entry priceText ud1).1
  let ud3 := (single_entry_location_selection locationData ud2).1
  let ud4 := (single_entry_remark_entry remarkText ud3).1
  submit_single_entry_data entry_id now user ud4 store

/-- Embeds ask_batch_products_selection: redraw the checklist, stay in the
toggle state. -/
def ask_batch_products_selection (ud : SessionData) : SessionData × ℤ :=
  (ud, CREATE_BATCH_TOGGLE_PRODUCTS)

/-- Embeds toggle_batch_product_selection: prettify the payload slug; remove
the first occurrence if present (list.remove), else append; redraw. -/
def toggle_batch_product_selection (data : String) (ud : SessionData) :
    SessionData × ℤ :=
  let raw_product_slug := pyRemoveAll CB_CREATE_BATCH_PRODUCT_TOGGLE_PFX data
  let product_name := clean_and_format_for_display raw_product_slug
  let selected := ud.batchSelectedProducts
  let selected :=
    if product_name ∈ selected then selected.erase product_name
    else selected ++ [product_name]
  ask_batch_products_selection { ud with batchSelectedProducts := selected }

/-- Embeds show_batch_confirmation: cancel when no entries were produced,
otherwise move to the batch confirmation state. -/
def show_batch_confirmation (ud : SessionData) : SessionData × ℤ :=
  if ud.batchEntries.isEmpty then cancel_conversation ud
  else (ud, CREATE_BATCH_CONFIRM_SUBMISSION)

/-- Embeds ask_next_price_for_batch: empty queue goes to confirmation,
otherwise the queue head becomes the product being priced. -/
def ask_next_price_for_batch (ud : SessionData) : SessionData × ℤ :=
  match ud.batchPriceQueue with
  | [] => show_batch_confirmation ud
  | current :: _ =>
    ({ ud with batchCurrentProductForPrice := some current }, CREATE_BATCH_ENTER_PRICE)

/-- Embeds batch_products_selection_done: requires at least one selection
(alert and stay otherwise), then seeds the price queue with a copy of the
selection and resets the entries list. -/
def batch_products_selection_done (ud : SessionData) : SessionData × ℤ :=
  if ud.batchSelectedProducts.isEmpty then (ud, CREATE_BATCH_TOGGLE_PRODUCTS)
  else
    ask_next_price_for_batch
      { ud with batchPriceQueue := ud.batchSelectedProducts, batchEntries := [] }

/-- Embeds batch_price_entry.  Validation comes first: a non-parsing or
non-positive price re-prompts the same state with the session untouched.  On
success the pending product is popped, the queue advances, the completed
entry is appended and the next price is requested.  The common location and
remark are present on every reachable success path; the dict lookups are
rendered with their flow values. -/
def batch_price_entry (text : String) (ud : SessionData) : SessionData × ℤ :=
  match parsePyFloat text with
  | Option.none => (ud, CREATE_BATCH_ENTER_PRICE)
  | some price =>
    if price ≤ 0 then (ud, CREATE_BATCH_ENTER_PRICE)
    else
      match ud.batchCurrentProductForPrice with
      | Option.none => cancel_conversation ud
      | some product_name =>
        let entry : BatchItem :=
          { product := product_name, price := price,
            location := ud.batchCommonLocation.getD "",
            remark := ud.batchCommonRemark.getD "" }
        ask_next_price_for_batch
          { ud with batchCurrentProductForPrice := Option.none,
                    batchPriceQueue := ud.batchPriceQueue.tail,
                    batchEntries := ud.batchEntries ++ [entry] }

/-- Embeds submit_batch_data: one row per accumulated entry, each with its
own fresh uuid (uuidGen i for the i-th entry) and the submission timestamp,
appended in one call; session cleared and conversation ended regardless of
the outcome. -/
def submit_batch_data (uuidGen : Nat → String) (now : Nat) (user : String)
    (ud : SessionData) (store : StoreState) :
    SessionData × ℤ × StoreState × Bool :=
  let rows_to_append : List Row :=
    (ud.batchEntries.enum).map (fun item =>
      [CellVal.s (uuidGen item.1), CellVal.ts now, CellVal.s user,
       CellVal.s item.2.product, CellVal.n item.2.price,
       CellVal.s item.2.location, CellVal.s item.2.remark])
  let r := append_rows_to_sheet store rows_to_append
  (SessionData.empty, CONV_END, r.2, r.1)

/-! ## Update dialog (src/handlers/update.py) -/

/-- Embeds UPDATABLE_FIELDS_MAP (dict lookup; unknown key raises, rendered
by Option). -/
def UPDATABLE_FIELDS_MAP (key : String) : Option String :=
  if key = "product" then some PRODUCT_FIELD
  else if key = "price" then some PRICE_FIELD
  else if key = "location" then some LOCATION_FIELD
  else if key = "remark" then some REMARK_FIELD
  else Option.none

/-- Embeds UPDATABLE_FIELDS_DISPLAY_ORDER. -/
def UPDATABLE_FIELDS_DISPLAY_ORDER : List String :=
  ["product", "price", "location", "remark"]

/-- Python dict assignment on an insertion-ordered association list: update
in place when the key exists, append otherwise. -/
def updAssoc (k : String) (v : CellVal) :
    List (String × CellVal) → List (String × CellVal)
  | [] => [(k, v)]
  | (k', v') :: rest =>
    if k' = k then (k, v) :: rest else (k', v') :: updAssoc k v rest

/-- Embeds show_field_selection_for_update: redraw the checklist. -/
def show_field_selection_for_update (ud : SessionData) : SessionData × ℤ :=
  (ud, UPDATE_SELECT_FIELDS_TOGGLE)

/-- Embeds toggle_field_selection_callback: toggle the key (list.remove of
the first occurrence, or append), then redraw. -/
def toggle_field_selection_callback (data : String) (ud : SessionData) :
    SessionData × ℤ :=
  let key := pyRemoveAll CB_UPDATE_FIELD_TOGGLE_PFX data
  let selected := ud.fieldsToUpdateSelectedKeys
  let selected :=
    if key ∈ selected then selected.erase key else selected ++ [key]
  show_field_selection_for_update { ud with fieldsToUpdateSelectedKeys := selected }

/-- Embeds confirm_multiple_changes: with no pending values the update is
cancelled (session cleared, END); otherwise show the summary and await
confirmation. -/
def confirm_multiple_changes (ud : SessionData) : SessionData × ℤ :=
  if ud.newValuesForUpdateMap.isEmpty then (SessionData.empty, CONV_END)
  else (ud, UPDATE_CONFIRM_MULTIPLE)

/-- Embeds ask_for_next_field_value: an empty queue goes to the summary,
otherwise the head becomes the field being updated. -/
def ask_for_next_field_value (ud : SessionData) : SessionData × ℤ :=
  match ud.updateFieldsQueue with
  | [] => confirm_multiple_changes ud
  | key :: _ =>
    ({ ud with currentFieldBeingUpdatedKey := some key }, UPDATE_ENTER_MULTIPLE_VALUES)

/-- Embeds proceed_with_selected_fields_callback: at least one field must be
selected (alert and stay otherwise); the queue is the display-order
restriction of the selection. -/
def proceed_with_selected_fields_callback (ud : SessionData) : SessionData × ℤ :=
  if ud.fieldsToUpdateSelectedKeys.isEmpty then (ud, UPDATE_SELECT_FIELDS_TOGGLE)
  else
    let queue := UPDATABLE_FIELDS_DISPLAY_ORDER.filter
      (fun k => k ∈ ud.fieldsToUpdateSelectedKeys)
    ask_for_next_field_value { ud with updateFieldsQueue := queue }

/-- Common tail of the new-value handlers: store the value under the sheet
field name of the current key, pop the queue, ask for the next value.  A
missing map key or an empty queue raises in the source (KeyError /
IndexError), rendered by .error. -/
def store_new_update_value (key : String) (v : CellVal) (ud : SessionData) :
    Except Unit (SessionData × ℤ) :=
  match UPDATABLE_FIELDS_MAP key with
  | Option.none => .error ()
  | some field =>
    match ud.updateFieldsQueue with
    | [] => .error ()
    | _ :: rest =>
      .ok (ask_for_next_field_value
        { ud with newValuesForUpdateMap := updAssoc field v ud.newValuesForUpdateMap,
                  updateFieldsQueue := rest })

/-- Embeds new_value_for_text_field_received: the price field must parse as
a positive float, otherwise re-prompt the same state without touching the
session; any other field stores the text verbatim. -/
def new_value_for_text_field_received (text : String) (ud : SessionData) :
    Except Unit (SessionData × ℤ) :=
  match ud.currentFieldBeingUpdatedKey with
  | Option.none => .error ()
  | some key =>
    if key = "price" then
      match parsePyFloat text with
      | Option.none => .ok (ud, UPDATE_ENTER_MULTIPLE_VALUES)
      | some v =>
        if v ≤ 0 then .ok (ud, UPDATE_ENTER_MULTIPLE_VALUES)
        else store_new_update_value key (CellVal.n v) ud
    else
      store_new_update_value key (CellVal.s text) ud

/-- Embeds new_value_for_product_or_location_callback: the payload slug is
prettified and stored for the current key (prefix chosen by that key). -/
def new_value_for_product_or_location_callback (data : String) (ud : SessionData) :
    Except Unit (SessionData × ℤ) :=
  match ud.currentFieldBeingUpdatedKey with
  | Option.none => .error ()
  | some key =>
    let pfx :=
      if key = "product" then CB_UPDATE_NEWVAL_PRODUCT_PFX
      else CB_UPDATE_NEWVAL_LOCATION_PFX
    let slug := pyRemoveAll pfx data
    store_new_update_value key (CellVal.s (clean_and_format_for_display slug)) ud

/-- Embeds execute_multiple_updates: one batch_update op per pending field
whose name occurs in HEADERS (HEADERS.index + 1 is the column), plus a
timestamp bump; the write is a raw worksheet.batch_update call with no
readiness wrapper, so a missing worksheet or an API failure raises out of
the handler (.error) and the session survives; when the call returns, the
session is cleared and the conversation ends. -/
def execute_multiple_updates (now : Nat) (ud : SessionData) (store : StoreState) :
    Except Unit (SessionData × ℤ × StoreState × Bool) :=
  match ud.updateRowNum with
  | Option.none => .error ()
  | some row_num =>
    let field_ops := ud.newValuesForUpdateMap.filterMap (fun fv =>
      (HEADERS.findIdx? (fun h => h = fv.1)).map
        (fun i => UpdateOp.mk row_num (i + 1) fv.2))
    let ts_ops := ((HEADERS.findIdx? (fun h => h = TIMESTAMP_FIELD)).map
      (fun i => [UpdateOp.mk row_num (i + 1) (CellVal.ts now)])).getD []
    let update_ops := field_ops ++ ts_ops
    if update_ops.isEmpty then .ok (SessionData.empty, CONV_END, store, false)
    else
      match batch_update_raw store update_ops with
      | .error e => .error e
      | .ok store' => .ok (SessionData.empty, CONV_END, store', true)

/-! ## Delete dialog (src/handlers/delete.py) -/

/-- Embeds confirm_delete_callback: on yes, delete the stored row through
the wrapper (which converts failures to False) and report; on no, just
acknowledge; both branches clear the session and end.  The success flag is
meaningful only on the yes branch.  Missing session keys raise (KeyError). -/
def confirm_delete_callback (action : String) (ud : SessionData)
    (store : StoreState) : Except Unit (SessionData × ℤ × StoreState × Bool) :=
  if action = CB_DELETE_CONFIRM_YES then
    match ud.deleteRowNum, ud.deleteEntryId with
    | some row_num, some _ =>
      let r := delete_row_from_sheet store row_num
      .ok (SessionData.empty, CONV_END, r.2, r.1)
    | _, _ => .error ()
  else
    .ok (SessionData.empty, CONV_END, store, true)

/-! ## Read dialog (src/handlers/read.py) -/

/-- What view_last_entries_callback renders. -/
inductive ViewRender where
  | fetchError
  | noEntries
  | noMore (showAlert : Bool)
  | page (pageIdx : Nat) (entries : List Row)
deriving DecidableEq, Repr

/-- Embeds view_last_entries_callback.  current_page is the page index
parsed from the ^view_last_(digits)$ payload.  The whole fetch is inside
try/except: a raw get_all_values that raises becomes the generic error
render and END.  A sheet with no data rows gives the terminal "no entries"
render; a page slice past the end answers with a "no more entries" alert
(show_alert=True) and keeps the pagination state; otherwise the page is
rendered newest-first. -/
def view_last_entries_callback (current_page : Nat) (store : StoreState) :
    ViewRender × ℤ :=
  match get_all_values_raw store with
  | .error _ => (ViewRender.fetchError, CONV_END)
  | .ok all_values =>
    if all_values.length ≤ 1 then (ViewRender.noEntries, CONV_END)
    else
      let data_rows := (all_values.drop 1).reverse
      let start_index := current_page * DEFAULT_ENTRIES_PER_PAGE_VIEW
      let page_entries := (data_rows.drop start_index).take DEFAULT_ENTRIES_PER_PAGE_VIEW
      if page_entries.isEmpty then (ViewRender.noMore true, VIEW_PAGINATING_ENTRIES)
      else (ViewRender.page current_page page_entries, VIEW_PAGINATING_ENTRIES)

/-! ## Insights pipeline (src/gsheet_utils.py, src/handlers/insights.py) -/

/-- One record as returned by worksheet.get_all_records(), restricted to the
three fields the insights pipeline reads; cell values are carried as the
strings str() would produce. -/
structure RawRecord where
  product : String
  location : String
  price : String
deriving DecidableEq, Repr

/-- One cleaned record ready for aggregation. -/
structure InsightRecord where
  product : String
  location : String
  price : ℚ
deriving DecidableEq, Repr

/-- The per-record body of the loop in get_all_data_for_insights: skip the
record when the product or location is falsy or the price does not parse as
a positive number after stripping and comma removal; otherwise keep the
cleaned names with the parsed price. -/
def process_insight_record (record : RawRecord) : Option InsightRecord :=
  if record.product = "" || record.location = "" then Option.none
  else
    let price_str_cleaned : String := ⟨(pyStrip record.price).data.filter (fun c => c ≠ ',')⟩
    match parsePyFloat price_str_cleaned with
    | Option.none => Option.none
    | some price_float =>
      if price_float ≤ 0 then Option.none
      else
        some { product := clean_and_capitalize_text record.product,
               location := clean_and_capitalize_text record.location,
               price := price_float }

/-- Embeds get_all_data_for_insights: readiness is checked first (not
connected gives []); a raising get_all_records is caught and gives []; the
records argument stands for the decoded worksheet.get_all_records() rows. -/
def get_all_data_for_insights (store : StoreState) (records : List RawRecord) :
    List InsightRecord :=
  if !store.connected then []
  else if store.failMode then []
  else records.filterMap process_insight_record

/-- The group_by_key argument of calculate_average_prices. -/
inductive GroupKey where
  | product
  | location
  | productLocation
deriving DecidableEq, Repr

/-- The composite key built per item: str(value).strip() per key part. -/
def keyFor (gb : GroupKey) (item : InsightRecord) : List String :=
  match gb with
  | GroupKey.product => [pyStrip item.product]
  | GroupKey.location => [pyStrip item.location]
  | GroupKey.productLocation => [pyStrip item.product, pyStrip item.location]

/-- Accumulator step of calculate_average_prices: dicts preserve insertion
order, so the accumulator is an ordered association list. -/
def upsertGroup (k : List String) (p : ℚ) :
    List (List String × ℚ × Nat) → List (List String × ℚ × Nat)
  | [] => [(k, p, 1)]
  | (k', t, c) :: rest =>
    if k' = k then (k', t + p, c + 1) :: rest
    else (k', t, c) :: upsertGroup k p rest

/-- Final per-group data of calculate_average_prices. -/
structure GroupStats where
  total : ℚ
  count : Nat
  average : ℚ
deriving DecidableEq, Repr

/-- Embeds calculate_average_prices: accumulate totals and counts per key,
then keep groups with a positive count and attach the mean rounded to two
decimals.  (On empty input the source returns the empty dict early, which
coincides with the fold.) -/
def calculate_average_prices (insights_data : List InsightRecord) (gb : GroupKey) :
    List (List String × GroupStats) :=
  let acc := insights_data.foldl (fun a item => upsertGroup (keyFor gb item) item.price a) []
  acc.filterMap (fun e =>
    if 0 < e.2.2 then
      some (e.1, GroupStats.mk e.2.1 e.2.2 (round2 (e.2.1 / (e.2.2 : ℚ))))
    else Option.none)

/-- Dict lookup on the ordered association lists used above. -/
def lookupGroup {α : Type} (k : List String) (l : List (List String × α)) : Option α :=
  (l.find? (fun e => e.1 == k)).map (fun e => e.2)

/-! ## Claim C3: the "new entry" cross-dialog handoff -/

/-- C3: pressing the "new entry" button of the post-action keyboard is
handled by the shared fallback, which clears the user's session data, and,
instead of returning END, invokes the create dialog's entry-point handler
start_new_entry and returns its resulting state, which is the create
dialog's first prompt state CREATE_CHOOSE_ENTRY_TYPE, not END and not the
main menu. -/
theorem C3_new_entry_handoff (ud : SessionData) :
    post_conversation_callback_handler (CB_MAIN_MENU_PFX ++ "new") ud
      = ((start_new_entry SessionData.empty).1,
         (start_new_entry SessionData.empty).2, NavRender.createTypePrompt)
    ∧ (post_conversation_callback_handler (CB_MAIN_MENU_PFX ++ "new") ud).1
        = SessionData.empty
    ∧ (post_conversation_callback_handler (CB_MAIN_MENU_PFX ++ "new") ud).2.1
        = CREATE_CHOOSE_ENTRY_TYPE
    ∧ CREATE_CHOOSE_ENTRY_TYPE ≠ CONV_END
    ∧ (post_conversation_callback_handler (CB_MAIN_MENU_PFX ++ "new") ud).2.2
        = NavRender.createTypePrompt
    ∧ NavRender.createTypePrompt ≠ NavRender.mainMenu := by
  refine ⟨rfl, rfl, rfl, by decide, rfl, by decide⟩

/-! ## Claim C5: pagination boundaries -/

/-- A connected store whose sheet has a header row and exactly one data
row. -/
def c5Store : StoreState :=
  { connected := true, failMode := false,
    rows := [[CellVal.s "id"], [CellVal.s "x"]] }

/-- C5 counterexample: the record set of c5Store is non-empty and page 1 is
beyond its last page, yet the handler responds with show_alert = True,
whereas the claim demands a non-alert response. -/
theorem C5_counterexample :
    (c5Store.rows.drop 1) ≠ []
    ∧ (view_last_entries_callback 1 c5Store).1 = ViewRender.noMore true
    ∧ (view_last_entries_callback 1 c5Store).1 ≠ ViewRender.noMore false := by
  refine ⟨by decide, rfl, by decide⟩

/-- C5 as amended: requesting any page of an empty record set yields the
terminal "no entries" render and END rather than an error; and for a
non-empty record set, a page whose slice is empty yields a "no more
entries" response delivered as an alert (show_alert=True in the source, the
only change from the claim) and returns the pagination state unchanged. -/
theorem C5_amended (store : StoreState) (page : Nat)
    (hconn : store.connected = true) (hfail : store.failMode = false) :
    (store.rows.length ≤ 1 →
      view_last_entries_callback page store = (ViewRender.noEntries, CONV_END))
    ∧ (1 < store.rows.length →
      ((store.rows.drop 1).reverse.drop (page * DEFAULT_ENTRIES_PER_PAGE_VIEW)).take
          DEFAULT_ENTRIES_PER_PAGE_VIEW = [] →
      view_last_entries_callback page store
        = (ViewRender.noMore true, VIEW_PAGINATING_ENTRIES)) := by
  constructor
  · intro hle
    simp [view_last_entries_callback, get_all_values_raw, hconn, hfail, hle]
  · intro hgt hempty
    simp only [view_last_entries_callback, get_all_values_raw, hconn, hfail,
      Bool.not_true, Bool.false_eq_true, if_false]
    rw [if_neg (by omega : ¬ store.rows.length ≤ 1), hempty]
    rfl

/-- C5 amended, witnessed at a concrete store and page. -/
theorem C5_amended_witness :
    view_last_entries_callback 1 c5Store
      = (ViewRender.noMore true, VIEW_PAGINATING_ENTRIES) :=
  (C5_amended c5Store 1 rfl rfl).2 (by decide) (by decide)

/-! ## Claim C9: batch multi-select toggling -/

/-- The product name the toggle handler computes from a callback payload. -/
def toggledProductName (data : String) : String :=
  clean_and_format_for_display (pyRemoveAll CB_CREATE_BATCH_PRODUCT_TOGGLE_PFX data)

/-- The list transformation performed by toggle_batch_product_selection on
'batch_selected_products': list.remove of the first occurrence when present,
append otherwise. -/
def toggleList (a : String) (l : List String) : List String :=
  if a ∈ l then l.erase a else l ++ [a]

theorem toggle_batch_sel_eq (data : String) (ud : SessionData) :
    ((toggle_batch_product_selection data ud).1).batchSelectedProducts
      = toggleList (toggledProductName data) ud.batchSelectedProducts := rfl

theorem mem_toggleList {a x : String} {l : List String} (h : l.Nodup) :
    x ∈ toggleList a l ↔ ((x ∈ l ∧ x ≠ a) ∨ (x = a ∧ a ∉ l)) := by
  unfold toggleList
  by_cases ha : a ∈ l
  · rw [if_pos ha, h.mem_erase_iff]
    constructor
    · rintro ⟨hxa, hx⟩; exact Or.inl ⟨hx, hxa⟩
    · rintro (⟨hx, hxa⟩ | ⟨rfl, hna⟩)
      · exact ⟨hxa, hx⟩
      · exact absurd ha hna
  · rw [if_neg ha, List.mem_append, List.mem_singleton]
    constructor
    · rintro (hx | rfl)
      · by_cases hxa : x = a
        · subst hxa; exact absurd hx ha
        · exact Or.inl ⟨hx, hxa⟩
      · exact Or.inr ⟨rfl, ha⟩
    · rintro (⟨hx, _⟩ | ⟨rfl, _⟩)
      · exact Or.inl hx
      · exact Or.inr rfl

theorem nodup_toggleList {a : String} {l : List String} (h : l.Nodup) :
    (toggleList a l).Nodup := by
  unfold toggleList
  by_cases ha : a ∈ l
  · rw [if_pos ha]; exact h.erase a
  · rw [if_neg ha, List.nodup_append]
    refine ⟨h, List.nodup_singleton a, ?_⟩
    intro x hx hxa
    rw [List.mem_singleton] at hxa
    exact ha (hxa ▸ hx)

theorem mem_toggleList' {a x : String} {l : List String} (h : l.Nodup) :
    x ∈ toggleList a l ↔ (if x = a then a ∉ l else x ∈ l) := by
  rw [mem_toggleList h]
  by_cases hxa : x = a
  · subst hxa; simp
  · simp [hxa]

theorem toggleList_twice {a : String} {l : List String} (h : l.Nodup) (x : String) :
    x ∈ toggleList a (toggleList a l) ↔ x ∈ l := by
  rw [mem_toggleList' (nodup_toggleList (a := a) h)]
  by_cases hxa : x = a
  · subst hxa
    rw [if_pos rfl, mem_toggleList' h, if_pos rfl, not_not]
  · rw [if_neg hxa, mem_toggleList' h, if_neg hxa]

theorem toggleList_comm {a b : String} {l : List String} (h : l.Nodup)
    (hab : a ≠ b) (x : String) :
    x ∈ toggleList b (toggleList a l) ↔ x ∈ toggleList a (toggleList b l) := by
  rw [mem_toggleList' (nodup_toggleList (a := a) h),
      mem_toggleList' (nodup_toggleList (a := b) h)]
  by_cases hxb : x = b <;> by_cases hxa : x = a
  · exact absurd (hxa ▸ hxb) (Ne.symm hab ∘ Eq.symm)
  · subst hxb
    rw [if_pos rfl, if_neg (Ne.symm hab), mem_toggleList' h,
        mem_toggleList' h, if_neg (Ne.symm hab), if_pos rfl]
  · subst hxa
    rw [if_neg hab, if_pos rfl, mem_toggleList' h,
        mem_toggleList' h, if_pos rfl, if_neg hab]
  · rw [if_neg hxb, if_neg hxa, mem_toggleList' h,
        mem_toggleList' h, if_neg hxa, if_neg hxb]

/-- C9: in the batch create multi-select screen, under the list's no-
duplicates invariant (which holds for every reachable selection list, since
toggling preserves it starting from the empty list), pressing the same
product button twice returns the selection set to exactly its original
membership, and toggling two distinct products yields the same membership in
either order. -/
theorem C9_toggle_selection (ud : SessionData) (data other : String)
    (h : ud.batchSelectedProducts.Nodup) :
    (∀ x, x ∈ ((toggle_batch_product_selection data
        (toggle_batch_product_selection data ud).1).1).batchSelectedProducts
      ↔ x ∈ ud.batchSelectedProducts)
    ∧ (toggledProductName data ≠ toggledProductName other →
      ∀ x, x ∈ ((toggle_batch_product_selection other
          (toggle_batch_product_selection data ud).1).1).batchSelectedProducts
        ↔ x ∈ ((toggle_batch_product_selection data
            (toggle_batch_product_selection other ud).1).1).batchSelectedProducts) := by
  constructor
  · intro x
    rw [toggle_batch_sel_eq, toggle_batch_sel_eq]
    exact toggleList_twice h x
  · intro hne x
    rw [toggle_batch_sel_eq, toggle_batch_sel_eq, toggle_batch_sel_eq, toggle_batch_sel_eq]
    exact toggleList_comm h hne x

/-- C9, witnessed on a concrete session and two concrete product buttons. -/
def c9Session : SessionData := { batchSelectedProducts := ["Carrot"] }

theorem C9_toggle_selection_witness :
    (∀ x, x ∈ ((toggle_batch_product_selection "create_b_prod_toggle_carrot"
        (toggle_batch_product_selection "create_b_prod_toggle_carrot" c9Session).1).1).batchSelectedProducts
      ↔ x ∈ c9Session.batchSelectedProducts)
    ∧ (toggledProductName "create_b_prod_toggle_carrot" ≠ toggledProductName "create_b_prod_toggle_corn" →
      ∀ x, x ∈ ((toggle_batch_product_selection "create_b_prod_toggle_corn"
          (toggle_batch_product_selection "create_b_prod_toggle_carrot" c9Session).1).1).batchSelectedProducts
        ↔ x ∈ ((toggle_batch_product_selection "create_b_prod_toggle_carrot"
            (toggle_batch_product_selection "create_b_prod_toggle_corn" c9Session).1).1).batchSelectedProducts) :=
  C9_toggle_selection c9Session "create_b_prod_toggle_carrot" "create_b_prod_toggle_corn"
    (by decide)

/-! ## Claim C2: invalid price input re-prompts without mutation -/

theorem session_update_currentEntry_self (ud : SessionData) (ce : CurrentEntry)
    (h : ud.currentEntry = some ce) : { ud with currentEntry := some ce } = ud := by
  cases ud
  simp only at h
  simp [h]

/-- C2: in all three price-entry states (single-entry price, batch
per-product price, and the update dialog's new-price value), a text input
that does not parse as a number, or parses to a non-positive value, makes
the handler return the same state identifier and leave the session's
accumulated fields unchanged.  (In the single-entry handler the
'current_entry' key is present in every reachable price-entry state, having
been created by the preceding product-selection step.) -/
theorem C2_invalid_price_reprompts (t : String) (p : ℚ)
    (ud1 ud2 ud3 : SessionData)
    (hbad : parsePyFloat t = Option.none ∨ (parsePyFloat t = some p ∧ p ≤ 0))
    (hce : ∃ ce, ud1.currentEntry = some ce)
    (hkey : ud3.currentFieldBeingUpdatedKey = some "price") :
    single_entry_price_entry t ud1 = (ud1, CREATE_SINGLE_ENTER_PRICE)
    ∧ batch_price_entry t ud2 = (ud2, CREATE_BATCH_ENTER_PRICE)
    ∧ new_value_for_text_field_received t ud3
        = Except.ok (ud3, UPDATE_ENTER_MULTIPLE_VALUES) := by
  obtain ⟨ce, hce⟩ := hce
  have hid : { ud1 with currentEntry := some (ud1.currentEntry.getD {}) } = ud1 := by
    rw [hce]; exact session_update_currentEntry_self ud1 ce hce
  rcases hbad with hnone | ⟨hsome, hle⟩
  · refine ⟨?_, ?_, ?_⟩
    · simp only [single_entry_price_entry, hnone]
      rw [hid]
    · simp only [batch_price_entry, hnone]
    · simp only [new_value_for_text_field_received, hkey, if_pos rfl, hnone]
      simp
  · refine ⟨?_, ?_, ?_⟩
    · simp only [single_entry_price_entry, hsome, if_pos hle]
      rw [hid]
    · simp only [batch_price_entry, hsome, if_pos hle]
    · simp only [new_value_for_text_field_received, hkey, if_pos rfl, hsome, if_pos hle]
      simp

/-- A session sitting in the single-entry price state. -/
def c2Single : SessionData := { currentEntry := some { product := some "Carrot" } }

/-- A session sitting in the batch price state. -/
def c2Batch : SessionData :=
  { batchCommonLocation := some "Gerji", batchPriceQueue := ["Carrot"],
    batchCurrentProductForPrice := some "Carrot" }

/-- A session sitting in the update dialog's price prompt. -/
def c2Update : SessionData :=
  { updateRowNum := some 2, updateFieldsQueue := ["price"],
    currentFieldBeingUpdatedKey := some "price" }

/-- C2, witnessed at the non-numeric input "abc" on concrete sessions. -/
theorem C2_invalid_price_reprompts_witness :
    single_entry_price_entry "abc" c2Single = (c2Single, CREATE_SINGLE_ENTER_PRICE)
    ∧ batch_price_entry "abc" c2Batch = (c2Batch, CREATE_BATCH_ENTER_PRICE)
    ∧ new_value_for_text_field_received "abc" c2Update
        = Except.ok (c2Update, UPDATE_ENTER_MULTIPLE_VALUES) :=
  C2_invalid_price_reprompts "abc" 0 c2Single c2Batch c2Update
    (Or.inl (by with_unfolding_all decide))
    ⟨{ product := some "Carrot" }, rfl⟩ rfl

/-! ## Claim C7: commit-stage handlers always clear and end -/

/-- The timestamp column op that execute_multiple_updates always appends
(HEADERS always contains the timestamp field, at index 1). -/
theorem exec_ts_ops_eq (rn now : Nat) :
    ((HEADERS.findIdx? (fun h => h = TIMESTAMP_FIELD)).map
      (fun i => [UpdateOp.mk rn (i + 1) (CellVal.ts now)])).getD []
    = [UpdateOp.mk rn 2 (CellVal.ts now)] := rfl

/-- C7 as amended: the single-entry submit, batch submit and delete-confirm
handlers clear the session and return END regardless of whether the
backing-store write reports success or failure; the update-execute handler
does so whenever its write call returns a value, but its write is a raw
worksheet.batch_update with no exception wrapper, so a raising write
escapes the handler without clearing the session (see the
counterexample). -/
theorem C7_amended :
    (∀ (entry_id : String) (now : Nat) (user : String) (ud : SessionData)
        (store : StoreState),
      (submit_single_entry_data entry_id now user ud store).1 = SessionData.empty
      ∧ (submit_single_entry_data entry_id now user ud store).2.1 = CONV_END)
    ∧ (∀ (gen : Nat → String) (now : Nat) (user : String) (ud : SessionData)
        (store : StoreState),
      (submit_batch_data gen now user ud store).1 = SessionData.empty
      ∧ (submit_batch_data gen now user ud store).2.1 = CONV_END)
    ∧ (∀ (action : String) (ud : SessionData) (store : StoreState)
        (rn : Nat) (eid : String),
      ud.deleteRowNum = some rn → ud.deleteEntryId = some eid →
      ∃ st ok, confirm_delete_callback action ud store
        = Except.ok (SessionData.empty, CONV_END, st, ok))
    ∧ (∀ (now : Nat) (ud : SessionData) (store : StoreState) (rn : Nat),
      ud.updateRowNum = some rn → store.connected = true → store.failMode = false →
      ∃ st, execute_multiple_updates now ud store
        = Except.ok (SessionData.empty, CONV_END, st, true)) := by
  refine ⟨?_, ?_, ?_, ?_⟩
  · intro entry_id now user ud store
    exact ⟨rfl, rfl⟩
  · intro gen now user ud store
    exact ⟨rfl, rfl⟩
  · intro action ud store rn eid hrn heid
    by_cases hy : action = CB_DELETE_CONFIRM_YES
    · refine ⟨(delete_row_from_sheet store rn).2, (delete_row_from_sheet store rn).1, ?_⟩
      simp [confirm_delete_callback, hy, hrn, heid]
    · exact ⟨store, true, by simp [confirm_delete_callback, hy]⟩
  · intro now ud store rn hrn hconn hfail
    simp only [execute_multiple_updates, hrn, exec_ts_ops_eq]
    rw [if_neg (by simp)]
    simp only [batch_update_raw, hconn, hfail, Bool.not_true, Bool.false_eq_true, if_false]
    exact ⟨_, rfl⟩

/-- C7 amended, witnessed at concrete inputs with a failing store (the
append wrapper reports failure, the dialog still ends cleanly). -/
def c7FailingStore : StoreState := { connected := true, failMode := true, rows := [[CellVal.s "h"]] }

theorem C7_amended_witness :
    ((submit_single_entry_data "id1" 7 "user" SessionData.empty c7FailingStore).1
        = SessionData.empty
      ∧ (submit_single_entry_data "id1" 7 "user" SessionData.empty c7FailingStore).2.1
        = CONV_END)
    ∧ ∃ st ok, confirm_delete_callback CB_DELETE_CONFIRM_YES
        { deleteRowNum := some 1, deleteEntryId := some "id1" } c7FailingStore
        = Except.ok (SessionData.empty, CONV_END, st, ok) :=
  ⟨C7_amended.1 "id1" 7 "user" SessionData.empty c7FailingStore,
   C7_amended.2.2.1 CB_DELETE_CONFIRM_YES
     { deleteRowNum := some 1, deleteEntryId := some "id1" } c7FailingStore 1 "id1" rfl rfl⟩

/-- Session and store on which the update-execute write raises. -/
def c7Session : SessionData :=
  { updateRowNum := some 1, newValuesForUpdateMap := [(PRICE_FIELD, CellVal.n 45)] }

def c7Store : StoreState :=
  { connected := true, failMode := true, rows := [[CellVal.s "h"], [CellVal.s "x"]] }

/-- C7 counterexample: when the raw batch_update write fails (raises), the
update-execute handler does not return END with a cleared session — the
exception escapes, refuting the claim for this commit-stage handler. -/
theorem C7_counterexample :
    execute_multiple_updates 5 c7Session c7Store = Except.error ()
    ∧ ∀ (res : SessionData × ℤ × StoreState × Bool),
        execute_multiple_updates 5 c7Session c7Store ≠ Except.ok res := by
  have h : execute_multiple_updates 5 c7Session c7Store = Except.error () := rfl
  exact ⟨h, fun res hc => by rw [h] at hc; exact Except.noConfusion hc⟩

/-! ## Claim C8: store readiness checks -/

/-- C8 as amended: the store wrapper functions (append, update-cell, delete,
insights fetch) check connectedness first and report failure without
raising and without touching the store; the view-last handler reaches the
worksheet inside try/except, so with no connection it renders an error and
ends the dialog; but execute_multiple_updates invokes the worksheet with no
readiness check or wrapper, so a readiness failure raises out of that
handler (the one correction to the claim). -/
theorem C8_amended (store : StoreState) (h : store.connected = false) :
    (∀ rows_data, append_rows_to_sheet store rows_data = (false, store))
    ∧ (∀ r c v, update_cell_in_sheet store r c v = (false, store))
    ∧ (∀ r, delete_row_from_sheet store r = (false, store))
    ∧ (∀ records, get_all_data_for_insights store records = [])
    ∧ (∀ page, view_last_entries_callback page store = (ViewRender.fetchError, CONV_END))
    ∧ (∀ (now : Nat) (ud : SessionData) (rn : Nat), ud.updateRowNum = some rn →
        execute_multiple_updates now ud store = Except.error ()) := by
  refine ⟨?_, ?_, ?_, ?_, ?_, ?_⟩
  · intro rows_data; simp [append_rows_to_sheet, h]
  · intro r c v; simp [update_cell_in_sheet, h]
  · intro r; simp [delete_row_from_sheet, h]
  · intro records; simp [get_all_data_for_insights, h]
  · intro page; simp [view_last_entries_callback, get_all_values_raw, h]
  · intro now ud rn hrn
    simp only [execute_multiple_updates, hrn, exec_ts_ops_eq]
    rw [if_neg (by simp)]
    simp [batch_update_raw, h]

/-- A disconnected store (gsheet_utils.worksheet is None). -/
def c8Store : StoreState := { connected := false, failMode := false, rows := [] }

/-- C8 amended, witnessed at the disconnected store. -/
theorem C8_amended_witness :
    append_rows_to_sheet c8Store [[CellVal.s "x"]] = (false, c8Store)
    ∧ view_last_entries_callback 0 c8Store = (ViewRender.fetchError, CONV_END) :=
  ⟨(C8_amended c8Store rfl).1 [[CellVal.s "x"]],
   (C8_amended c8Store rfl).2.2.2.2.1 0⟩

/-- Session poised at the update confirmation against a disconnected store. -/
def c8Session : SessionData :=
  { updateRowNum := some 1, newValuesForUpdateMap := [(LOCATION_FIELD, CellVal.s "Gerji")] }

/-- C8 counterexample: with the store not connected, the update-execute
handler raises (models the AttributeError on the absent worksheet) instead
of rendering an error and ending the dialog — no END result exists,
refuting the claim that every store-touching handler checks readiness first
and that no readiness failure raises out of a handler. -/
theorem C8_counterexample :
    execute_multiple_updates 3 c8Session c8Store = Except.error ()
    ∧ ∀ (res : SessionData × ℤ × StoreState × Bool),
        execute_multiple_updates 3 c8Session c8Store ≠ Except.ok res := by
  have h : execute_multiple_updates 3 c8Session c8Store = Except.error () := rfl
  exact ⟨h, fun res hc => by rw [h] at hc; exact Except.noConfusion hc⟩

/-! ## Claim C6: the update write touches exactly the selected cells -/

theorem getCell_setCell_self (rows : List Row) (r c : Nat) (v : CellVal)
    (hr1 : 1 ≤ r) (hr : r ≤ rows.length)
    (hc1 : 1 ≤ c) (hc : c ≤ (rows[r - 1]?.getD []).length) :
    getCell (setCell rows r c v) r c = some v := by
  unfold getCell setCell
  rw [List.getElem?_set_self (by omega : r - 1 < rows.length)]
  simp only [Option.some_bind]
  exact List.getElem?_set_self (by omega : c - 1 < (rows[r - 1]?.getD []).length)

theorem getCell_setCell_ne (rows : List Row) (r c : Nat) (v : CellVal)
    (r' c' : Nat) (hr'1 : 1 ≤ r') (hr1 : 1 ≤ r) (hc'1 : 1 ≤ c') (hc1 : 1 ≤ c)
    (hne : r' ≠ r ∨ c' ≠ c) :
    getCell (setCell rows r c v) r' c' = getCell rows r' c' := by
  unfold getCell setCell
  by_cases hrr : r' = r
  · subst hrr
    rcases hne with hne | hne
    · exact absurd rfl hne
    · rw [List.getElem?_set_self']
      cases hcell : rows[r' - 1]? with
      | none => rfl
      | some row =>
        simp only [Option.map_eq_map, Option.map_some', Option.some_bind,
          Function.const, hcell, Option.getD_some]
        exact List.getElem?_set_ne (by omega : c - 1 ≠ c' - 1)
  · rw [List.getElem?_set_ne (by omega : r - 1 ≠ r' - 1)]

theorem setCell_length (rows : List Row) (r c : Nat) (v : CellVal) :
    (setCell rows r c v).length = rows.length := by
  unfold setCell
  exact List.length_set rows (r - 1) _

theorem setCell_row_length (rows : List Row) (r c : Nat) (v : CellVal)
    (hr : r - 1 < rows.length) :
    ((setCell rows r c v)[r - 1]?.getD []).length = (rows[r - 1]?.getD []).length := by
  unfold setCell
  rw [List.getElem?_set_self hr]
  simp

/-- The session contents ask_id_received installs after a successful lookup
(src/handlers/update.py, context.user_data.update({...})). -/
def updateSessionAfterLookup (eid : String) (rn : Nat)
    (orig : List (String × String)) : SessionData :=
  { updateEntryId := some eid, updateRowNum := some rn,
    updateOriginalData := orig,
    fieldsToUpdateSelectedKeys := [], newValuesForUpdateMap := [] }

/-- The location value the update dialog stores for a location button whose
payload carries the given slug. -/
def locValOf (locSlug : String) : String :=
  clean_and_format_for_display
    (pyRemoveAll CB_UPDATE_NEWVAL_LOCATION_PFX (CB_UPDATE_NEWVAL_LOCATION_PFX ++ locSlug))

/-- The update dialog's steps for a user who toggles exactly price and
location, supplies both new values, and confirms: the two field toggles,
proceed, the price text, the location button, then the confirmed execute. -/
def run_update_price_location (priceText locSlug : String) (now : Nat)
    (ud : SessionData) (store : StoreState) :
    Except Unit (SessionData × ℤ × StoreState × Bool) :=
  let ud1 := (toggle_field_selection_callback (CB_UPDATE_FIELD_TOGGLE_PFX ++ "price") ud).1
  let ud2 := (toggle_field_selection_callback (CB_UPDATE_FIELD_TOGGLE_PFX ++ "location") ud1).1
  let ud3 := (proceed_with_selected_fields_callback ud2).1
  match new_value_for_text_field_received priceText ud3 with
  | .error e => .error e
  | .ok r1 =>
    match new_value_for_product_or_location_callback
        (CB_UPDATE_NEWVAL_LOCATION_PFX ++ locSlug) r1.1 with
    | .error e => .error e
    | .ok r2 => execute_multiple_updates now r2.1 store

/-- The three batch_update operations the confirmed price+location update
issues. -/
def c6Ops (rn : Nat) (p : ℚ) (locSlug : String) (now : Nat) : List UpdateOp :=
  [UpdateOp.mk rn 5 (CellVal.n p),
   UpdateOp.mk rn 6 (CellVal.s (locValOf locSlug)),
   UpdateOp.mk rn 2 (CellVal.ts now)]

theorem c6_run_eq (eid : String) (orig : List (String × String)) (rn : Nat)
    (priceText locSlug : String) (p : ℚ) (now : Nat) (store : StoreState)
    (hp : parsePyFloat priceText = some p) (hpos : 0 < p)
    (hconn : store.connected = true) (hfail : store.failMode = false) :
    run_update_price_location priceText locSlug now
        (updateSessionAfterLookup eid rn orig) store
      = Except.ok (SessionData.empty, CONV_END,
          { store with rows := applyOps store.rows (c6Ops rn p locSlug now) }, true) := by
  have hA : pyRemoveAll CB_UPDATE_FIELD_TOGGLE_PFX
      (CB_UPDATE_FIELD_TOGGLE_PFX ++ "price") = "price" := by decide
  have hB : pyRemoveAll CB_UPDATE_FIELD_TOGGLE_PFX
      (CB_UPDATE_FIELD_TOGGLE_PFX ++ "location") = "location" := by decide
  have hnp : ¬ p ≤ 0 := not_le.mpr hpos
  simp [run_update_price_location, updateSessionAfterLookup,
    toggle_field_selection_callback, show_field_selection_for_update,
    proceed_with_selected_fields_callback, ask_for_next_field_value,
    confirm_multiple_changes, new_value_for_text_field_received,
    new_value_for_product_or_location_callback, store_new_update_value,
    UPDATABLE_FIELDS_MAP, UPDATABLE_FIELDS_DISPLAY_ORDER, updAssoc,
    execute_multiple_updates, batch_update_raw, locValOf, c6Ops,
    hA, hB, hp, hnp, hconn, hfail, PRODUCT_FIELD, PRICE_FIELD,
    LOCATION_FIELD, REMARK_FIELD, TIMESTAMP_FIELD, HEADERS, ID_FIELD,
    EMAIL_FIELD, List.findIdx?]

/-- C6: when the user selects exactly the fields price and location,
supplies a valid price and a location button, and confirms, the committed
write changes exactly the price cell (column 5), the location cell (column
6) and the timestamp cell (column 2) of the target row, and leaves the
row's product (column 4) and remark (column 7) cells — and every other cell
of the sheet — unchanged. -/
theorem C6_update_frame (eid : String) (orig : List (String × String)) (rn : Nat)
    (priceText locSlug : String) (p : ℚ) (now : Nat) (store : StoreState)
    (hp : parsePyFloat priceText = some p) (hpos : 0 < p)
    (hconn : store.connected = true) (hfail : store.failMode = false)
    (hr1 : 1 ≤ rn) (hr : rn ≤ store.rows.length)
    (hrowlen : (store.rows[rn - 1]?.getD []).length = 7) :
    ∃ rows', run_update_price_location priceText locSlug now
        (updateSessionAfterLookup eid rn orig) store
      = Except.ok (SessionData.empty, CONV_END, { store with rows := rows' }, true)
    ∧ getCell rows' rn 5 = some (CellVal.n p)
    ∧ getCell rows' rn 6 = some (CellVal.s (locValOf locSlug))
    ∧ getCell rows' rn 2 = some (CellVal.ts now)
    ∧ getCell rows' rn 4 = getCell store.rows rn 4
    ∧ getCell rows' rn 7 = getCell store.rows rn 7
    ∧ (∀ c, 1 ≤ c → c ≠ 2 → c ≠ 5 → c ≠ 6 →
        getCell rows' rn c = getCell store.rows rn c)
    ∧ (∀ i c, 1 ≤ i → i ≠ rn → 1 ≤ c →
        getCell rows' i c = getCell store.rows i c) := by
  refine ⟨applyOps store.rows (c6Ops rn p locSlug now),
    c6_run_eq eid orig rn priceText locSlug p now store hp hpos hconn hfail, ?_⟩
  have happ : applyOps store.rows (c6Ops rn p locSlug now)
      = setCell (setCell (setCell store.rows rn 5 (CellVal.n p)) rn 6
          (CellVal.s (locValOf locSlug))) rn 2 (CellVal.ts now) := rfl
  set R0 := store.rows with hR0
  set R1 := setCell R0 rn 5 (CellVal.n p) with hR1
  set R2 := setCell R1 rn 6 (CellVal.s (locValOf locSlug)) with hR2
  have hlen1 : R1.length = R0.length := setCell_length ..
  have hlen2 : R2.length = R1.length := setCell_length ..
  have hridx : rn - 1 < R0.length := by omega
  have hrow1 : (R1[rn - 1]?.getD []).length = 7 := by
    rw [hR1, setCell_row_length R0 rn 5 _ hridx]; exact hrowlen
  have hrow2 : (R2[rn - 1]?.getD []).length = 7 := by
    rw [hR2, setCell_row_length R1 rn 6 _ (by omega)]; exact hrow1
  rw [happ]
  refine ⟨?_, ?_, ?_, ?_, ?_, ?_, ?_⟩
  · rw [getCell_setCell_ne _ _ _ _ _ _ hr1 hr1 (by omega) (by omega) (Or.inr (by omega)),
        hR2, getCell_setCell_ne _ _ _ _ _ _ hr1 hr1 (by omega) (by omega) (Or.inr (by omega)),
        hR1]
    exact getCell_setCell_self R0 rn 5 _ hr1 hr (by omega) (by omega)
  · rw [getCell_setCell_ne _ _ _ _ _ _ hr1 hr1 (by omega) (by omega) (Or.inr (by omega)),
        hR2]
    exact getCell_setCell_self R1 rn 6 _ hr1 (by omega) (by omega) (by omega)
  · exact getCell_setCell_self R2 rn 2 _ hr1 (by omega) (by omega) (by omega)
  · rw [getCell_setCell_ne _ _ _ _ _ _ hr1 hr1 (by omega) (by omega) (Or.inr (by omega)),
        hR2, getCell_setCell_ne _ _ _ _ _ _ hr1 hr1 (by omega) (by omega) (Or.inr (by omega)),
        hR1, getCell_setCell_ne _ _ _ _ _ _ hr1 hr1 (by omega) (by omega) (Or.inr (by omega))]
  · rw [getCell_setCell_ne _ _ _ _ _ _ hr1 hr1 (by omega) (by omega) (Or.inr (by omega)),
        hR2, getCell_setCell_ne _ _ _ _ _ _ hr1 hr1 (by omega) (by omega) (Or.inr (by omega)),
        hR1, getCell_setCell_ne _ _ _ _ _ _ hr1 hr1 (by omega) (by omega) (Or.inr (by omega))]
  · intro c hc1 hc2 hc5 hc6
    rw [getCell_setCell_ne _ _ _ _ _ _ hr1 hr1 hc1 (by omega) (Or.inr hc2),
        hR2, getCell_setCell_ne _ _ _ _ _ _ hr1 hr1 hc1 (by omega) (Or.inr hc6),
        hR1, getCell_setCell_ne _ _ _ _ _ _ hr1 hr1 hc1 (by omega) (Or.inr hc5)]
  · intro i c hi1 hir hc1
    rw [getCell_setCell_ne _ _ _ _ _ _ hi1 hr1 hc1 (by omega) (Or.inl hir),
        hR2, getCell_setCell_ne _ _ _ _ _ _ hi1 hr1 hc1 (by omega) (Or.inl hir),
        hR1, getCell_setCell_ne _ _ _ _ _ _ hi1 hr1 hc1 (by omega) (Or.inl hir)]

/-- A connected store with one seven-column data row for the C6 witness. -/
def c6Store : StoreState :=
  { connected := true, failMode := false,
    rows := [[CellVal.s "id0", CellVal.ts 1, CellVal.s "u", CellVal.s "Carrot",
              CellVal.n 30, CellVal.s "Gerji", CellVal.s "r"]] }

/-- C6, witnessed at a concrete row, price and location. -/
theorem C6_update_frame_witness :
    ∃ rows', run_update_price_location "45" "gerji" 9
        (updateSessionAfterLookup "id0" 1 []) c6Store
      = Except.ok (SessionData.empty, CONV_END, { c6Store with rows := rows' }, true)
    ∧ getCell rows' 1 5 = some (CellVal.n 45)
    ∧ getCell rows' 1 6 = some (CellVal.s (locValOf "gerji"))
    ∧ getCell rows' 1 2 = some (CellVal.ts 9)
    ∧ getCell rows' 1 4 = getCell c6Store.rows 1 4
    ∧ getCell rows' 1 7 = getCell c6Store.rows 1 7
    ∧ (∀ c, 1 ≤ c → c ≠ 2 → c ≠ 5 → c ≠ 6 →
        getCell rows' 1 c = getCell c6Store.rows 1 c)
    ∧ (∀ i c, 1 ≤ i → i ≠ 1 → 1 ≤ c →
        getCell rows' i c = getCell c6Store.rows i c) :=
  C6_update_frame "id0" [] 1 "45" "gerji" 45 9 c6Store
    (by with_unfolding_all decide) (by with_unfolding_all decide) rfl rfl
    (by decide) (by decide) (by decide)

/-! ## Claim C1: single-entry round trip -/

/-- The row the single-entry dialog commits when the user picks the product
button labelled P, types price 12.5, picks the location button labelled L
and types remark R: the product and location cells hold the prettified
payload slugs (underscores to spaces, title case), not necessarily the
original labels. -/
def c1Row (P L R entry_id : String) (t : Nat) (user : String) : Row :=
  [CellVal.s entry_id, CellVal.ts t, CellVal.s user,
   CellVal.s (clean_and_format_for_display
     (pyRemoveAll CB_CREATE_SINGLE_PRODUCT_PFX (CB_CREATE_SINGLE_PRODUCT_PFX ++ slugOf P))),
   CellVal.n (25 / 2),
   CellVal.s (clean_and_format_for_display
     (pyRemoveAll CB_CREATE_SINGLE_LOCATION_PFX (CB_CREATE_SINGLE_LOCATION_PFX ++ slugOf L))),
   CellVal.s R]

/-- C1 as amended: completing the single-entry dialog with product button P,
price text 12.5, location button L and remark R commits exactly one record;
its id is the freshly generated unique id, its timestamp is the submission
time (at least the dialog's start time), its price is 12.5 and its remark
is R verbatim; its product and location are the title-cased display forms
of the buttons' payload slugs, which coincide with P and L only when those
labels are fixed by that normalization (the only change from the claim). -/
theorem C1_amended (P L R entry_id user : String) (t0 t1 : Nat)
    (store : StoreState)
    (hconn : store.connected = true) (hfail : store.failMode = false)
    (hfresh : ∀ row ∈ store.rows, row[0]? ≠ some (CellVal.s entry_id))
    (hclock : t0 ≤ t1) :
    run_single_entry_dialog (CB_CREATE_SINGLE_PRODUCT_PFX ++ slugOf P) "12.5"
        (CB_CREATE_SINGLE_LOCATION_PFX ++ slugOf L) R entry_id t1 user store
      = (SessionData.empty, CONV_END,
         { store with rows := store.rows ++ [c1Row P L R entry_id t1 user] }, true)
    ∧ (c1Row P L R entry_id t1 user)[0]? = some (CellVal.s entry_id)
    ∧ (∀ row ∈ store.rows, row[0]? ≠ some (CellVal.s entry_id))
    ∧ t0 ≤ t1 := by
  have hp : parsePyFloat "12.5" = some (25 / 2) := by with_unfolding_all decide
  have hnp : ¬ (25 / 2 : ℚ) ≤ 0 := by norm_num
  refine ⟨?_, rfl, hfresh, hclock⟩
  simp [run_single_entry_dialog, ask_single_entry_product,
    single_entry_product_selection, single_entry_price_entry,
    single_entry_location_selection, single_entry_remark_entry,
    show_single_entry_confirmation, submit_single_entry_data,
    append_rows_to_sheet, cellOfOptStr, cellOfOptPrice, c1Row,
    hp, hnp, hconn, hfail]

/-- An empty connected store for the C1 instances. -/
def c1Store : StoreState := { connected := true, failMode := false, rows := [] }

/-- C1, witnessed at a concrete product, location, remark and id. -/
theorem C1_amended_witness :
    run_single_entry_dialog (CB_CREATE_SINGLE_PRODUCT_PFX ++ slugOf "Carrot") "12.5"
        (CB_CREATE_SINGLE_LOCATION_PFX ++ slugOf "Distribution Center 1 Gerji") "rm"
        "uid-1" 5 "user" c1Store
      = (SessionData.empty, CONV_END,
         { c1Store with rows := c1Store.rows
             ++ [c1Row "Carrot" "Distribution Center 1 Gerji" "rm" "uid-1" 5 "user"] }, true)
    ∧ (c1Row "Carrot" "Distribution Center 1 Gerji" "rm" "uid-1" 5 "user")[0]?
        = some (CellVal.s "uid-1")
    ∧ (∀ row ∈ c1Store.rows, row[0]? ≠ some (CellVal.s "uid-1"))
    ∧ 3 ≤ 5 :=
  C1_amended "Carrot" "Distribution Center 1 Gerji" "rm" "uid-1" "user" 3 5 c1Store
    rfl rfl (fun row hrow => absurd hrow (List.not_mem_nil row)) (by decide)

/-- C1 counterexample: for the product "Beet root" (an entry of
config.PRODUCTS) the committed record's product cell is the normalized
"Beet Root", not the selected label "Beet root", refuting the claim that
the stored product equals P as selected. -/
theorem C1_counterexample :
    "Beet root" ∈ PRODUCTS
    ∧ (run_single_entry_dialog (CB_CREATE_SINGLE_PRODUCT_PFX ++ slugOf "Beet root") "12.5"
        (CB_CREATE_SINGLE_LOCATION_PFX ++ slugOf "Distribution Center 1 Gerji") "rm"
        "uid-1" 5 "user" c1Store).2.2.1.rows
      = [[CellVal.s "uid-1", CellVal.ts 5, CellVal.s "user", CellVal.s "Beet Root",
          CellVal.n (25 / 2), CellVal.s "Distribution Center 1 Gerji", CellVal.s "rm"]]
    ∧ CellVal.s "Beet Root" ≠ CellVal.s "Beet root" := by
  refine ⟨by decide, by with_unfolding_all decide, by decide⟩

/-! ## Claim C4: insights cleaning and grouping -/

theorem lookupGroup_upsert_self (k : List String) (p : ℚ)
    (acc : List (List String × ℚ × Nat)) :
    lookupGroup k (upsertGroup k p acc)
      = some (match lookupGroup k acc with
              | some tc => (tc.1 + p, tc.2 + 1)
              | Option.none => (p, 1)) := by
  induction acc with
  | nil => simp [upsertGroup, lookupGroup]
  | cons e rest ih =>
    obtain ⟨k', t, c⟩ := e
    by_cases hk : k' = k
    · subst hk
      simp [upsertGroup, lookupGroup]
    · simp only [upsertGroup, if_neg hk]
      simp only [lookupGroup, List.find?_cons] at ih ⊢
      have hbeq : (k' == k) = false := beq_eq_false_iff_ne.mpr hk
      simp [hbeq, ih]

theorem lookupGroup_upsert_ne (k k' : List String) (p : ℚ)
    (acc : List (List String × ℚ × Nat)) (h : k' ≠ k) :
    lookupGroup k' (upsertGroup k p acc) = lookupGroup k' acc := by
  induction acc with
  | nil => simp [upsertGroup, lookupGroup, beq_eq_false_iff_ne.mpr (Ne.symm h)]
  | cons e rest ih =>
    obtain ⟨k0, t, c⟩ := e
    by_cases hk : k0 = k
    · subst hk
      simp [upsertGroup, lookupGroup, beq_eq_false_iff_ne.mpr (Ne.symm h)]
    · simp only [upsertGroup, if_neg hk]
      simp only [lookupGroup, List.find?_cons] at ih ⊢
      by_cases h0 : k0 = k'
      · subst h0; simp
      · simp [beq_eq_false_iff_ne.mpr h0, ih]

/-- Combine a group's running pair with the contribution of further data. -/
def addGroup (o : Option (ℚ × Nat)) (s : ℚ) (c : Nat) : Option (ℚ × Nat) :=
  match o with
  | some tc => some (tc.1 + s, tc.2 + c)
  | Option.none => if c = 0 then Option.none else some (s, c)

theorem lookup_fold (gb : GroupKey) (k : List String) :
    ∀ (data : List InsightRecord) (acc : List (List String × ℚ × Nat)),
    lookupGroup k (data.foldl (fun a item => upsertGroup (keyFor gb item) item.price a) acc)
      = addGroup (lookupGroup k acc)
          (((data.filter (fun it => keyFor gb it = k)).map InsightRecord.price).sum)
          ((data.filter (fun it => keyFor gb it = k)).length) := by
  intro data
  induction data with
  | nil =>
    intro acc
    rcases h : lookupGroup k acc with _ | ⟨t, c⟩ <;> simp [addGroup, h]
  | cons it rest ih =>
    intro acc
    rw [List.foldl_cons, ih]
    by_cases hk : keyFor gb it = k
    · rw [hk, lookupGroup_upsert_self]
      rcases h : lookupGroup k acc with _ | ⟨t, c⟩ <;>
        simp [addGroup, h, List.filter_cons, hk, Prod.ext_iff] <;>
        first | omega | exact ⟨by ring, by omega⟩
    · rw [lookupGroup_upsert_ne (keyFor gb it) k it.price acc (fun hc => hk hc.symm)]
      simp [List.filter_cons, hk]

theorem upsert_counts_pos (k : List String) (p : ℚ)
    (acc : List (List String × ℚ × Nat)) (h : ∀ e ∈ acc, 0 < e.2.2) :
    ∀ e ∈ upsertGroup k p acc, 0 < e.2.2 := by
  induction acc with
  | nil => intro e he; simp [upsertGroup] at he; simp [he]
  | cons e0 rest ih =>
    obtain ⟨k0, t, c⟩ := e0
    intro e he
    by_cases hk : k0 = k
    · simp only [upsertGroup, if_pos hk, List.mem_cons] at he
      rcases he with rfl | he2
      · exact Nat.succ_pos c
      · exact h e (List.mem_cons_of_mem _ he2)
    · simp only [upsertGroup, if_neg hk, List.mem_cons] at he
      rcases he with rfl | he2
      · exact h _ (List.mem_cons_self _ _)
      · exact ih (fun e' he' => h e' (List.mem_cons_of_mem _ he')) e he2

theorem fold_counts_pos (gb : GroupKey) :
    ∀ (data : List InsightRecord) (acc : List (List String × ℚ × Nat)),
    (∀ e ∈ acc, 0 < e.2.2) →
    ∀ e ∈ data.foldl (fun a item => upsertGroup (keyFor gb item) item.price a) acc,
      0 < e.2.2 := by
  intro data
  induction data with
  | nil => intro acc h; exact h
  | cons it rest ih =>
    intro acc h
    rw [List.foldl_cons]
    exact ih _ (upsert_counts_pos _ _ _ h)

theorem lookup_filterMap_stats (k : List String)
    (acc : List (List String × ℚ × Nat)) (hpos : ∀ e ∈ acc, 0 < e.2.2) :
    lookupGroup k (acc.filterMap (fun e =>
        if 0 < e.2.2 then
          some (e.1, GroupStats.mk e.2.1 e.2.2 (round2 (e.2.1 / (e.2.2 : ℚ))))
        else Option.none))
      = (lookupGroup k acc).map
          (fun tc => GroupStats.mk tc.1 tc.2 (round2 (tc.1 / (tc.2 : ℚ)))) := by
  induction acc with
  | nil => simp [lookupGroup]
  | cons e rest ih =>
    obtain ⟨k0, t, c⟩ := e
    have hc : 0 < c := hpos _ (List.mem_cons_self _ _)
    have ihr := ih (fun e' he' => hpos e' (List.mem_cons_of_mem _ he'))
    simp only [List.filterMap_cons, if_pos hc]
    by_cases hk : k0 = k
    · subst hk
      simp [lookupGroup, List.find?_cons]
    · unfold lookupGroup at ihr ⊢
      rw [List.find?_cons_of_neg _ (by simp [hk]), List.find?_cons_of_neg _ (by simp [hk])]
      exact ihr

/-- A connected, healthy store for the insights examples. -/
def insightsDemoStore : StoreState := { connected := true, failMode := false, rows := [] }

/-- The example records of the claim: (P1,L1,10), (P1,L1,20), (P2,L1,5). -/
def c4Records : List RawRecord :=
  [{ product := "P1", location := "L1", price := "10" },
   { product := "P1", location := "L1", price := "20" },
   { product := "P2", location := "L1", price := "5" }]

/-- C4: the insights computation drops exactly the records with a missing
product, missing location, or a price that does not parse or is not
strictly positive; the pipeline is the record-wise filter of the fetched
rows; each group of the chosen key holds the record count and the
arithmetic mean price rounded to 2 decimals; and on the example records
grouping by product gives P1 with count 2 and average 15 and P2 with count
1 and average 5. -/
theorem C4_insights_grouping :
    (∀ record : RawRecord,
      (process_insight_record record).isSome = true
        ↔ (record.product ≠ "" ∧ record.location ≠ ""
           ∧ ∃ p : ℚ,
             parsePyFloat ⟨(pyStrip record.price).data.filter (fun c => c ≠ ',')⟩ = some p
             ∧ 0 < p))
    ∧ (∀ store : StoreState, store.connected = true → store.failMode = false →
        ∀ records, get_all_data_for_insights store records
          = records.filterMap process_insight_record)
    ∧ (∀ (data : List InsightRecord) (gb : GroupKey) (k : List String),
        (data.filter (fun it => keyFor gb it = k) = [] →
          lookupGroup k (calculate_average_prices data gb) = Option.none)
        ∧ (data.filter (fun it => keyFor gb it = k) ≠ [] →
          lookupGroup k (calculate_average_prices data gb)
            = some (GroupStats.mk
                ((data.filter (fun it => keyFor gb it = k)).map InsightRecord.price).sum
                (data.filter (fun it => keyFor gb it = k)).length
                (round2 ((((data.filter (fun it => keyFor gb it = k)).map
                    InsightRecord.price).sum)
                  / ((data.filter (fun it => keyFor gb it = k)).length : ℚ))))))
    ∧ calculate_average_prices
        (get_all_data_for_insights insightsDemoStore c4Records) GroupKey.product
      = [(["P1"], GroupStats.mk 30 2 15), (["P2"], GroupStats.mk 5 1 5)] := by
  refine ⟨?_, ?_, ?_, ?_⟩
  · intro record
    by_cases h1 : record.product = ""
    · simp [process_insight_record, h1]
    · by_cases h2 : record.location = ""
      · simp [process_insight_record, h1, h2]
      · rcases hp : parsePyFloat ⟨(pyStrip record.price).data.filter (fun c => c ≠ ',')⟩
          with _ | p <;> simp only [ne_eq, decide_not] at hp
        · simp [process_insight_record, h1, h2, hp]
        · by_cases hle : p ≤ 0
          · simp [process_insight_record, h1, h2, hp, hle, not_lt.mpr hle]
          · simp [process_insight_record, h1, h2, hp, hle, not_le.mp hle]
  · intro store hconn hfail records
    simp [get_all_data_for_insights, hconn, hfail]
  · intro data gb k
    have hcnt := fold_counts_pos gb data [] (by simp)
    constructor
    · intro hemp
      have hf := lookup_fold gb k data []
      rw [show lookupGroup k ([] : List (List String × ℚ × Nat)) = Option.none from rfl,
        hemp] at hf
      simp only [List.map_nil, List.sum_nil, List.length_nil, addGroup, if_pos rfl] at hf
      simp only [calculate_average_prices]
      rw [lookup_filterMap_stats k _ hcnt, hf]
      rfl
    · intro hne
      have hf := lookup_fold gb k data []
      rw [show lookupGroup k ([] : List (List String × ℚ × Nat)) = Option.none from rfl] at hf
      have hlen : (data.filter (fun it => keyFor gb it = k)).length ≠ 0 := by
        simpa [List.length_eq_zero] using hne
      simp only [addGroup, if_neg hlen] at hf
      simp only [calculate_average_prices]
      rw [lookup_filterMap_stats k _ hcnt, hf]
      rfl
  · with_unfolding_all decide

/-! ## Claim C10: normalization before grouping -/

theorem ulTable_fst_unique :
    ∀ q ∈ ulTable, ulTable.find? (fun z => z.1 == q.1) = some q := by decide

theorem ulTable_snd_unique :
    ∀ q ∈ ulTable, ulTable.find? (fun z => z.2 == q.2) = some q := by decide

theorem ulTable_fst_not_snd :
    ∀ q ∈ ulTable, ulTable.find? (fun z => z.2 == q.1) = none := by decide

theorem ulTable_snd_not_fst :
    ∀ q ∈ ulTable, ulTable.find? (fun z => z.1 == q.2) = none := by decide

/-- Two characters with the same ASCII lowercasing agree on letterhood and
uppercasing, and are equal when not letters. -/
theorem lower_eq_analysis {c d : Char} (h : lowerChar c = lowerChar d) :
    isAlphaTab c = isAlphaTab d ∧ upperChar c = upperChar d
    ∧ (isAlphaTab c = false → c = d) := by
  unfold lowerChar at h
  cases hc : ulTable.find? (fun q => q.1 == c) with
  | none =>
    cases hd : ulTable.find? (fun q => q.1 == d) with
    | none =>
      rw [hc, hd] at h
      subst h
      exact ⟨rfl, rfl, fun _ => rfl⟩
    | some qd =>
      rw [hc, hd] at h
      have hmem := List.mem_of_find?_eq_some hd
      have heq : qd.1 = d := by have hb := List.find?_some hd; simpa using hb
      subst heq
      subst h
      refine ⟨?_, ?_, ?_⟩
      · unfold isAlphaTab isUpperTab isLowerTab
        rw [ulTable_snd_not_fst qd hmem, ulTable_snd_unique qd hmem,
            ulTable_fst_unique qd hmem]
        rfl
      · unfold upperChar
        rw [ulTable_snd_unique qd hmem, ulTable_fst_not_snd qd hmem]
      · intro hf
        exfalso
        unfold isAlphaTab isUpperTab isLowerTab at hf
        rw [ulTable_snd_not_fst qd hmem, ulTable_snd_unique qd hmem] at hf
        simp at hf
  | some qc =>
    have hmemc := List.mem_of_find?_eq_some hc
    have heqc : qc.1 = c := by have hb := List.find?_some hc; simpa using hb
    subst heqc
    cases hd : ulTable.find? (fun q => q.1 == d) with
    | none =>
      rw [hc, hd] at h
      subst h
      refine ⟨?_, ?_, ?_⟩
      · unfold isAlphaTab isUpperTab isLowerTab
        rw [ulTable_snd_not_fst qc hmemc, ulTable_snd_unique qc hmemc,
            ulTable_fst_unique qc hmemc]
        rfl
      · unfold upperChar
        rw [ulTable_snd_unique qc hmemc, ulTable_fst_not_snd qc hmemc]
      · intro hf
        exfalso
        unfold isAlphaTab isUpperTab isLowerTab at hf
        rw [ulTable_fst_unique qc hmemc] at hf
        simp at hf
    | some qd =>
      rw [hc, hd] at h
      have hmemd := List.mem_of_find?_eq_some hd
      have heqd : qd.1 = d := by have hb := List.find?_some hd; simpa using hb
      subst heqd
      have hqq : qc = qd := by
        change qc.2 = qd.2 at h
        have h1 := ulTable_snd_unique qc hmemc
        have h2 := ulTable_snd_unique qd hmemd
        rw [h] at h1
        rw [h1] at h2
        exact Option.some.inj h2
      subst hqq
      exact ⟨rfl, rfl, fun _ => rfl⟩

/-- pythonTitleAux depends only on the lowercased input. -/
theorem titleAux_congr : ∀ (cs ds : List Char) (b : Bool),
    cs.map lowerChar = ds.map lowerChar → pythonTitleAux b cs = pythonTitleAux b ds := by
  intro cs
  induction cs with
  | nil =>
    intro ds b h
    cases ds with
    | nil => rfl
    | cons d ds => simp at h
  | cons c cs ih =>
    intro ds b h
    cases ds with
    | nil => simp at h
    | cons d ds =>
      simp only [List.map_cons, List.cons.injEq] at h
      obtain ⟨h1, h2⟩ := h
      obtain ⟨ha, hu, hne⟩ := lower_eq_analysis h1
      by_cases hc : isAlphaTab c = true
      · have hd : isAlphaTab d = true := ha ▸ hc
        simp only [pythonTitleAux, hc, hd, if_true]
        cases b <;> simp [h1, hu, ih ds true h2]
      · have hcf : isAlphaTab c = false := by
          revert hc; cases isAlphaTab c <;> simp
        have hcd : c = d := hne hcf
        subst hcd
        simp only [pythonTitleAux]
        by_cases hc2 : isAlphaTab c = true
        · exact absurd hc2 hc
        · simp only [hcf, Bool.false_eq_true, if_false, List.cons.injEq]
          exact ⟨trivial, ih ds false h2⟩

/-- The identity of a stored name up to letter case and punctuation: its
letters, digits and whitespace, lowercased. -/
def normalizedKey (s : String) : List Char :=
  (s.data.filter keepChar).map lowerChar

theorem clean_congr (s1 s2 : String) (h : normalizedKey s1 = normalizedKey s2) :
    clean_and_capitalize_text s1 = clean_and_capitalize_text s2 := by
  unfold clean_and_capitalize_text
  rw [titleAux_congr (s1.data.filter keepChar) (s2.data.filter keepChar) false h]

/-- C10: before grouping, the insights pipeline rewrites every record's
product and location through _clean_and_capitalize_text (drop all
characters that are not letters, digits or whitespace; title-case;
collapse whitespace); that normalization identifies names that differ only
in case or punctuation, so such records land in the same group, and the
group labels are the normalized names — as on the concrete pair
"red onion!" / "RED ONION", which aggregate under the label "Red Onion". -/
theorem C10_normalized_grouping :
    (∀ s1 s2 : String, normalizedKey s1 = normalizedKey s2 →
      clean_and_capitalize_text s1 = clean_and_capitalize_text s2)
    ∧ (∀ (record : RawRecord) (out : InsightRecord),
        process_insight_record record = some out →
        out.product = clean_and_capitalize_text record.product
        ∧ out.location = clean_and_capitalize_text record.location)
    ∧ calculate_average_prices
        (get_all_data_for_insights insightsDemoStore
          [{ product := "red onion!", location := "L1", price := "10" },
           { product := "RED ONION", location := "L1", price := "20" }])
        GroupKey.product
      = [(["Red Onion"], GroupStats.mk 30 2 15)] := by
  refine ⟨clean_congr, ?_, ?_⟩
  · intro record out hout
    simp only [process_insight_record] at hout
    split at hout
    · exact Option.noConfusion hout
    · split at hout
      · exact Option.noConfusion hout
      · split at hout
        · exact Option.noConfusion hout
        · cases hout
          exact ⟨rfl, rfl⟩
  · with_unfolding_all decide
